import Mathlib

/-!
Verification of the cooking-with-chris recipe application frontend.

The definitions below are shallow embeddings of the JavaScript source:
pure fragments become Lean functions, the pieces of browser state the code
touches (localStorage, the inactivity timer handle, React state) become
explicit record fields, and fallible paths return `Option`/`Except`.
-/

/-! ## Recipe form data model (CreateRecipePage) -/

/-- Embeds one ingredient row of the create-recipe form: free-text quantity and
unit of measure, the ingredient name, and its explicit order index. -/
structure Ingredient where
  ingredient_quantity : String
  ingredient_uom : String
  ingredient_name : String
  ingredient_order : Nat
deriving Repr, DecidableEq

/-- Embeds one ingredient section of the form: a title, an order index and the
ordered list of its ingredients. -/
structure IngredientSection where
  section_title : String
  section_order : Nat
  ingredients : List Ingredient
deriving Repr, DecidableEq

/-- Embeds one instruction step: step text plus its order index. -/
structure Instruction where
  instruction_step : String
  step_order : Nat
deriving Repr, DecidableEq

/-- Embeds one instruction section: a title, an order index and the ordered
list of its steps. -/
structure InstructionSection where
  section_title : String
  section_order : Nat
  instructions : List Instruction
deriving Repr, DecidableEq

/-- Embeds the `formData` state of CreateRecipePage together with the two
section lists.  Text inputs hold strings; the three numeric inputs hold
`none` when the input is blank (the JavaScript keeps them as strings, where
the empty string is the only falsy value such an input can produce) and
`some v` when a number `v` was typed. -/
structure RecipeForm where
  recipe_name : String
  recipe_description : String
  course_type : String
  recipe_type : String
  primary_protein : String
  ethnic_style : String
  prep_time : Option Int
  cook_time : Option Int
  number_servings : Option Int
  ingredient_sections : List IngredientSection
  instruction_sections : List InstructionSection
deriving Repr, DecidableEq

/-- Whitespace recognised by JavaScript `String.prototype.trim` restricted to
the ASCII characters a text input can contain. -/
def isJsSpace (c : Char) : Bool :=
  c == ' ' || c == '\t' || c == '\n' || c == '\r'

/-- Embeds JavaScript `s.trim()`: drop whitespace from both ends. -/
def jsTrim (s : String) : String :=
  String.mk (((s.data.dropWhile isJsSpace).reverse.dropWhile isJsSpace).reverse)

/-- Embeds the check `!formData.prep_time || formData.prep_time < 0` (the input
is a string, so blank is the falsy case and otherwise the value is compared
numerically). -/
def timeInvalid : Option Int → Bool
  | none => true
  | some v => v < 0

/-- Embeds the check `!formData.number_servings || formData.number_servings < 1`. -/
def servingsInvalid : Option Int → Bool
  | none => true
  | some v => v < 1

/-! ## validateForm (CreateRecipePage)

The source walks the fields in a fixed order and, at the first violation,
stores one error message via `setError` and returns `false`.  The embedding
returns `some message` for that first violation and `none` when the form is
valid. -/

/-- Embeds the inner loop `for (const ingredient of section.ingredients)`:
returns the error for the first ingredient with a blank name. -/
def validateIngredients : List Ingredient → Option String
  | [] => none
  | ing :: rest =>
    if jsTrim ing.ingredient_name = "" then some "All ingredients must have a name"
    else validateIngredients rest

/-- Embeds the loop `for (const section of ingredientSections)`: title check,
then emptiness check, then the per-ingredient name checks, returning the
first error found. -/
def validateIngredientSections : List IngredientSection → Option String
  | [] => none
  | s :: rest =>
    if jsTrim s.section_title = "" then some "All ingredient sections must have a title"
    else if s.ingredients.length = 0 then some "Each ingredient section must have at least one ingredient"
    else
      match validateIngredients s.ingredients with
      | some e => some e
      | none => validateIngredientSections rest

/-- Embeds the inner loop `for (const instruction of section.instructions)`:
returns the error for the first step with blank text. -/
def validateInstructions : List Instruction → Option String
  | [] => none
  | ins :: rest =>
    if jsTrim ins.instruction_step = "" then some "All instruction steps must have text"
    else validateInstructions rest

/-- Embeds the loop `for (const section of instructionSections)`. -/
def validateInstructionSections : List InstructionSection → Option String
  | [] => none
  | s :: rest =>
    if jsTrim s.section_title = "" then some "All instruction sections must have a title"
    else if s.instructions.length = 0 then some "Each instruction section must have at least one step"
    else
      match validateInstructions s.instructions with
      | some e => some e
      | none => validateInstructionSections rest

/-- Embeds CreateRecipePage.validateForm: sequential checks, each `setError`
plus `return false` becoming `some message`; `none` is the `return true`
path. -/
def validateForm (f : RecipeForm) : Option String :=
  if jsTrim f.recipe_name = "" then some "Recipe name is required"
  else if jsTrim f.recipe_description = "" then some "Recipe description is required"
  else if f.course_type = "" then some "Course type is required"
  else if f.recipe_type = "" then some "Recipe type is required"
  else if f.primary_protein = "" then some "Primary protein is required"
  else if f.ethnic_style = "" then some "Ethnic style is required"
  else if timeInvalid f.prep_time then some "Valid prep time is required"
  else if timeInvalid f.cook_time then some "Valid cook time is required"
  else if servingsInvalid f.number_servings then some "Number of servings must be at least 1"
  else
    match validateIngredientSections f.ingredient_sections with
    | some e => some e
    | none =>
      match validateInstructionSections f.instruction_sections with
      | some e => some e
      | none => none

/-! ## Exhaustive violation enumeration

`allViolations` re-traverses the same fields in the same order as
`validateForm` but collects a message for every violated field instead of
stopping at the first one.  It is the yardstick for the spec sentence that
validation "returns every violated field, never just the first". -/

/-- All blank-name violations among a list of ingredients, in order. -/
def ingredientViolations : List Ingredient → List String
  | [] => []
  | ing :: rest =>
    (if jsTrim ing.ingredient_name = "" then ["All ingredients must have a name"] else [])
      ++ ingredientViolations rest

/-- All violations inside one ingredient section, in the order
`validateForm` checks them. -/
def ingredientSectionViolationsOf (s : IngredientSection) : List String :=
  (if jsTrim s.section_title = "" then ["All ingredient sections must have a title"] else [])
    ++ (if s.ingredients.length = 0 then ["Each ingredient section must have at least one ingredient"] else [])
    ++ ingredientViolations s.ingredients

/-- All violations across the ingredient sections, in order. -/
def ingredientSectionsViolations : List IngredientSection → List String
  | [] => []
  | s :: rest => ingredientSectionViolationsOf s ++ ingredientSectionsViolations rest

/-- All blank-step violations among a list of instructions, in order. -/
def instructionViolations : List Instruction → List String
  | [] => []
  | ins :: rest =>
    (if jsTrim ins.instruction_step = "" then ["All instruction steps must have text"] else [])
      ++ instructionViolations rest

/-- All violations inside one instruction section. -/
def instructionSectionViolationsOf (s : InstructionSection) : List String :=
  (if jsTrim s.section_title = "" then ["All instruction sections must have a title"] else [])
    ++ (if s.instructions.length = 0 then ["Each instruction section must have at least one step"] else [])
    ++ instructionViolations s.instructions

/-- All violations across the instruction sections, in order. -/
def instructionSectionsViolations : List InstructionSection → List String
  | [] => []
  | s :: rest => instructionSectionViolationsOf s ++ instructionSectionsViolations rest

/-- All violations of the basic (non-nested) fields, in the order
`validateForm` checks them. -/
def basicViolations (f : RecipeForm) : List String :=
  (if jsTrim f.recipe_name = "" then ["Recipe name is required"] else [])
    ++ (if jsTrim f.recipe_description = "" then ["Recipe description is required"] else [])
    ++ (if f.course_type = "" then ["Course type is required"] else [])
    ++ (if f.recipe_type = "" then ["Recipe type is required"] else [])
    ++ (if f.primary_protein = "" then ["Primary protein is required"] else [])
    ++ (if f.ethnic_style = "" then ["Ethnic style is required"] else [])
    ++ (if timeInvalid f.prep_time then ["Valid prep time is required"] else [])
    ++ (if timeInvalid f.cook_time then ["Valid cook time is required"] else [])
    ++ (if servingsInvalid f.number_servings then ["Number of servings must be at least 1"] else [])

/-- Every violated field of the whole form, each with its message, in the
order `validateForm` visits the fields. -/
def allViolations (f : RecipeForm) : List String :=
  basicViolations f
    ++ ingredientSectionsViolations f.ingredient_sections
    ++ instructionSectionsViolations f.instruction_sections

/-! ## Section/item list editing (CreateRecipePage)

The removal helpers all follow the same source pattern: filter the array by
`(_, index) => index !== targetIndex`, then walk the survivors with
`forEach((x, index) => x.order = index + 1)`. -/

/-- Embeds `list.filter((_, index) => index !== i)`: keep the elements whose
position differs from `i`. -/
def filterOutIndex (l : List α) (i : Nat) : List α :=
  (l.enum.filter (fun p => p.1 ≠ i)).map Prod.snd

/-- Embeds `updated.forEach((section, index) => section.section_order = index + 1)`
for ingredient sections; `k` is the index of the first element. -/
def renumberIngredientSections : Nat → List IngredientSection → List IngredientSection
  | _, [] => []
  | k, s :: rest => { s with section_order := k + 1 } :: renumberIngredientSections (k + 1) rest

/-- Embeds CreateRecipePage.removeIngredientSection: filter out the section at
`sectionIndex`, then renumber the remaining sections from 1. -/
def removeIngredientSection (sections : List IngredientSection) (sectionIndex : Nat) :
    List IngredientSection :=
  renumberIngredientSections 0 (filterOutIndex sections sectionIndex)

/-- Embeds the `forEach((ingredient, index) => ingredient.ingredient_order = index + 1)`
renumbering pass. -/
def renumberIngredients : Nat → List Ingredient → List Ingredient
  | _, [] => []
  | k, ing :: rest => { ing with ingredient_order := k + 1 } :: renumberIngredients (k + 1) rest

/-- Embeds CreateRecipePage.removeIngredient as the transformation it applies
to the targeted section's `ingredients` array: filter out position
`ingredientIndex`, then renumber from 1. -/
def removeIngredientAt (ingredients : List Ingredient) (ingredientIndex : Nat) :
    List Ingredient :=
  renumberIngredients 0 (filterOutIndex ingredients ingredientIndex)

/-- Embeds the `forEach((section, index) => section.section_order = index + 1)`
renumbering pass for instruction sections. -/
def renumberInstructionSections : Nat → List InstructionSection → List InstructionSection
  | _, [] => []
  | k, s :: rest => { s with section_order := k + 1 } :: renumberInstructionSections (k + 1) rest

/-- Embeds CreateRecipePage.removeInstructionSection. -/
def removeInstructionSection (sections : List InstructionSection) (sectionIndex : Nat) :
    List InstructionSection :=
  renumberInstructionSections 0 (filterOutIndex sections sectionIndex)

/-- Embeds the `forEach((instruction, index) => instruction.step_order = index + 1)`
renumbering pass. -/
def renumberInstructions : Nat → List Instruction → List Instruction
  | _, [] => []
  | k, ins :: rest => { ins with step_order := k + 1 } :: renumberInstructions (k + 1) rest

/-- Embeds CreateRecipePage.removeInstruction as the transformation it applies
to the targeted section's `instructions` array. -/
def removeInstructionAt (instructions : List Instruction) (instructionIndex : Nat) :
    List Instruction :=
  renumberInstructions 0 (filterOutIndex instructions instructionIndex)

/-- Embeds CreateRecipePage.addIngredientSection: append a fresh section whose
`section_order` is `ingredientSections.length + 1`, holding one blank
ingredient with order 1. -/
def addIngredientSection (sections : List IngredientSection) : List IngredientSection :=
  sections ++
    [{ section_title := "", section_order := sections.length + 1,
       ingredients := [{ ingredient_quantity := "", ingredient_uom := "",
                         ingredient_name := "", ingredient_order := 1 }] }]

/-- Embeds CreateRecipePage.addIngredient as the push it performs on the
targeted section's `ingredients` array: the new row's `ingredient_order` is
`ingredients.length + 1`. -/
def addIngredientTo (ingredients : List Ingredient) : List Ingredient :=
  ingredients ++
    [{ ingredient_quantity := "", ingredient_uom := "", ingredient_name := "",
       ingredient_order := ingredients.length + 1 }]

/-- Embeds CreateRecipePage.addInstructionSection: append a fresh section with
`section_order = instructionSections.length + 1` and one blank step of order 1. -/
def addInstructionSection (sections : List InstructionSection) : List InstructionSection :=
  sections ++
    [{ section_title := "", section_order := sections.length + 1,
       instructions := [{ instruction_step := "", step_order := 1 }] }]

/-- Embeds CreateRecipePage.addInstruction as the push it performs on the
targeted section's `instructions` array: the new step's `step_order` is
`instructions.length + 1`. -/
def addInstructionTo (instructions : List Instruction) : List Instruction :=
  instructions ++ [{ instruction_step := "", step_order := instructions.length + 1 }]

/-! ## Browser session storage -/

/-- The three localStorage entries the auth code touches: `access_token`,
`refresh_token` and `user` (the serialized user object). -/
structure Storage where
  access_token : Option String
  refresh_token : Option String
  user : Option String
deriving Repr, DecidableEq

/-- Embeds the triple `localStorage.removeItem('access_token')`,
`removeItem('refresh_token')`, `removeItem('user')` that the interceptor's
logout branches and authService.logout's `finally` block both execute. -/
def clearAuthStorage (st : Storage) : Storage :=
  { st with access_token := none, refresh_token := none, user := none }

/-! ## Axios response interceptor (api.js) -/

/-- A request as the interceptor sees it: its `_retry` marker (absent, i.e.
`false`, until the interceptor retries it once) and its Authorization header. -/
structure AxiosRequest where
  retry : Bool
  authHeader : Option String
deriving Repr, DecidableEq

/-- What handling a failed response leads to: re-sending the original request
(after a successful refresh), a plain promise rejection, or a forced logout
redirect to the given URL. -/
inductive InterceptOutcome
  | retried (req : AxiosRequest)
  | rejected
  | redirect (url : String)
deriving Repr, DecidableEq

/-- Result of one run of the response-error interceptor: the outcome, the
localStorage contents afterwards, and how many POSTs to `/auth/refresh/`
were attempted (0 or 1). -/
structure InterceptResult where
  outcome : InterceptOutcome
  storage : Storage
  refreshAttempts : Nat
deriving Repr, DecidableEq

/-- Embeds the `api.interceptors.response` error handler.  `status` is
`error.response?.status` (`none` when the error carried no response);
`refreshResult` is what the POST to `/auth/refresh/` would yield: `some
access` on success, `none` when that request fails. -/
def interceptResponseError (req : AxiosRequest) (status : Option Nat)
    (st : Storage) (refreshResult : Option String) : InterceptResult :=
  if status = some 401 ∧ req.retry = false then
    let req1 : AxiosRequest := { req with retry := true }
    match st.refresh_token with
    | some _ =>
      match refreshResult with
      | some access =>
        { outcome := .retried { req1 with authHeader := some access },
          storage := { st with access_token := some access },
          refreshAttempts := 1 }
      | none =>
        { outcome := .redirect "/login?reason=session_expired",
          storage := clearAuthStorage st,
          refreshAttempts := 1 }
    | none =>
      { outcome := .redirect "/login?reason=no_session",
        storage := clearAuthStorage st,
        refreshAttempts := 0 }
  else
    { outcome := .rejected, storage := st, refreshAttempts := 0 }

/-- How a sent request comes back: success, or a failure whose
`error.response?.status` is the given value (`none` = no response). -/
inductive AxiosResponse
  | success
  | failure (status : Option Nat)
deriving Repr, DecidableEq

/-- Total number of refresh attempts a single client request can cause.  The
original request goes out with no `_retry` marker; if its failure makes the
interceptor retry, the retried request (now marked) is interposed at most
once more, and by then the 401 branch is skipped. -/
def requestRefreshAttempts (st : Storage) (first : AxiosResponse)
    (refreshResult : Option String) (second : AxiosResponse)
    (refreshResult2 : Option String) : Nat :=
  match first with
  | .success => 0
  | .failure s1 =>
    let r1 := interceptResponseError { retry := false, authHeader := st.access_token } s1 st refreshResult
    r1.refreshAttempts +
      match r1.outcome with
      | .retried req2 =>
        match second with
        | .success => 0
        | .failure s2 => (interceptResponseError req2 s2 r1.storage refreshResult2).refreshAttempts
      | _ => 0

/-! ## Auth context: inactivity timer and logout (AuthContext.jsx) -/

/-- The 12-hour inactivity timeout in milliseconds. -/
def INACTIVITY_TIMEOUT : Nat := 12 * 60 * 60 * 1000

/-- The client-side auth state the AuthProvider manipulates: localStorage,
the `inactivityTimerRef` handle (`some d` = a pending timeout of `d`
milliseconds, `none` = no pending timer), and the React `user` state. -/
structure AuthState where
  storage : Storage
  timer : Option Nat
  contextUser : Option String
deriving Repr, DecidableEq

/-- Embeds authService.getCurrentUser: read the `user` localStorage entry. -/
def getCurrentUser (s : AuthState) : Option String :=
  s.storage.user

/-- Embeds clearInactivityTimer: `clearTimeout` then null the ref. -/
def clearInactivityTimer (s : AuthState) : AuthState :=
  { s with timer := none }

/-- Embeds resetInactivityTimer: clear the timer, then arm a fresh
INACTIVITY_TIMEOUT-millisecond timeout only if a user is logged in. -/
def resetInactivityTimer (s : AuthState) : AuthState :=
  let s1 := clearInactivityTimer s
  if (getCurrentUser s1).isSome then { s1 with timer := some INACTIVITY_TIMEOUT } else s1

/-- The fixed `activityEvents` list the provider listens to. -/
def activityEvents : List String :=
  ["mousedown", "keydown", "scroll", "touchstart", "click"]

/-- Embeds handleActivity: reset the timer only when a user is logged in. -/
def handleActivity (s : AuthState) : AuthState :=
  if (getCurrentUser s).isSome then resetInactivityTimer s else s

/-- A window event reaches handleActivity exactly when a listener was
registered for it, i.e. when its name is in `activityEvents`. -/
def dispatchWindowEvent (e : String) (s : AuthState) : AuthState :=
  if e ∈ activityEvents then handleActivity s else s

/-- Embeds authService.logout.  The POST to `/auth/logout/` (issued only when
a refresh token is stored, and whose failure is caught and logged) never
touches localStorage; the `finally` block removes the three entries
unconditionally.  `logoutApiThrows` says whether that POST throws. -/
def authServiceLogout (st : Storage) (logoutApiThrows : Bool) : Storage :=
  let _ := logoutApiThrows
  clearAuthStorage st

/-- Embeds handleInactivityLogout: `await authService.logout()`, set the React
user state to null, then redirect to `/login?reason=inactivity`. -/
def handleInactivityLogout (s : AuthState) (logoutApiThrows : Bool) : AuthState × String :=
  let s1 := { s with storage := authServiceLogout s.storage logoutApiThrows }
  let s2 := { s1 with contextUser := none }
  (s2, "/login?reason=inactivity")

/-- What happens when the event loop reaches the armed timeout: a pending
timer fires handleInactivityLogout (and is no longer pending); with no
pending timer nothing runs and no redirect is produced. -/
def fireInactivityTimer (s : AuthState) (logoutApiThrows : Bool) : AuthState × Option String :=
  match s.timer with
  | none => (s, none)
  | some _ =>
    let s0 := { s with timer := none }
    let r := handleInactivityLogout s0 logoutApiThrows
    (r.1, some r.2)

/-- Embeds the write-through setter `setUser`: on a user, persist and restart
the timer; on null, clear the persisted user and the timer. -/
def setUser (next : Option String) (s : AuthState) : AuthState :=
  match next with
  | some u =>
    let s1 := { s with contextUser := some u, storage := { s.storage with user := some u } }
    resetInactivityTimer s1
  | none =>
    let s1 := { s with contextUser := none, storage := { s.storage with user := none } }
    clearInactivityTimer s1

/-- Embeds the AuthProvider's explicit `logout`: clear the inactivity timer,
run authService.logout, then `setUser(null)`. -/
def providerLogout (s : AuthState) (logoutApiThrows : Bool) : AuthState :=
  let s1 := clearInactivityTimer s
  let s2 := { s1 with storage := authServiceLogout s1.storage logoutApiThrows }
  setUser none s2

/-! ## Recipe list query parameters (RecipeListPage / MyRecipesPage) -/

/-- The JavaScript values that can appear in the params object: a string, a
numeric user id, or `undefined` (from `user?.id` when no user is loaded). -/
inductive JVal
  | str (s : String)
  | num (n : Nat)
  | undef
deriving Repr, DecidableEq

/-- The `filters` state object shared by RecipeListPage and MyRecipesPage. -/
structure RecipeFilters where
  course_type : String
  recipe_type : String
  primary_protein : String
  ethnic_style : String
deriving Repr, DecidableEq

/-- Embeds RecipeListPage.fetchRecipes' params construction: spread the four
filters, add `search` only when `searchTerm` is truthy (a non-empty string),
then delete every key whose value is the empty string. -/
def fetchRecipesParams (filters : RecipeFilters) (searchTerm : String) :
    List (String × JVal) :=
  let params :=
    [("course_type", JVal.str filters.course_type),
     ("recipe_type", JVal.str filters.recipe_type),
     ("primary_protein", JVal.str filters.primary_protein),
     ("ethnic_style", JVal.str filters.ethnic_style)]
    ++ (if searchTerm ≠ "" then [("search", JVal.str searchTerm)] else [])
  params.filter (fun kv => kv.2 ≠ JVal.str "")

/-- Embeds MyRecipesPage.fetchMyRecipes: same construction plus
`uploaded_by: user?.id` (`undefined` when no user is loaded). -/
def fetchMyRecipesParams (filters : RecipeFilters) (userId : Option Nat)
    (searchTerm : String) : List (String × JVal) :=
  let params :=
    [("course_type", JVal.str filters.course_type),
     ("recipe_type", JVal.str filters.recipe_type),
     ("primary_protein", JVal.str filters.primary_protein),
     ("ethnic_style", JVal.str filters.ethnic_style),
     ("uploaded_by", match userId with | some i => JVal.num i | none => JVal.undef)]
    ++ (if searchTerm ≠ "" then [("search", JVal.str searchTerm)] else [])
  params.filter (fun kv => kv.2 ≠ JVal.str "")

/-! ## Comment section (CommentSection.jsx) -/

/-- What CommentSection renders in the form slot: the comment form for an
authenticated user, otherwise the log-in prompt. -/
inductive CommentFormView
  | form
  | loginPrompt
deriving Repr, DecidableEq

/-- Embeds the JSX conditional `isAuthenticated ? <form .../> : <log-in prompt>`. -/
def commentSectionView (isAuthenticated : Bool) : CommentFormView :=
  if isAuthenticated then .form else .loginPrompt

/-- Embeds CommentSection.handleSubmit: a blank trimmed text sets the error
message and issues no request; otherwise the create request is issued with
the trimmed text as payload. -/
def handleSubmitComment (commentText : String) : Except String String :=
  if jsTrim commentText = "" then Except.error "Comment cannot be empty."
  else Except.ok (jsTrim commentText)

/-! ## Derived total time (backend, modelled from the spec) -/

/-- Modelled from the spec: the backend code that derives `total_time` is not
under `src/` (the frontend only displays `recipe.total_time`); per the spec,
`computeTotalTime(prep, cook)` is the pure function `prep + cook`. -/
def computeTotalTime (prep cook : Nat) : Nat :=
  prep + cook

/-- The time fields of a recipe as stored and returned by the backend. -/
structure StoredRecipe where
  prep_time : Nat
  cook_time : Nat
  total_time : Nat
deriving Repr, DecidableEq

/-- Modelled from the spec: backend create persists the recipe with
`total_time` derived from its inputs, never stored independently. -/
def createRecipeStored (prep cook : Nat) : StoredRecipe :=
  { prep_time := prep, cook_time := cook, total_time := computeTotalTime prep cook }

/-- Modelled from the spec: backend update replaces the time inputs and
recomputes `total_time` from the new values. -/
def updateRecipeStored (r : StoredRecipe) (prep cook : Nat) : StoredRecipe :=
  let _ := r
  { prep_time := prep, cook_time := cook, total_time := computeTotalTime prep cook }

/-! ## Concrete fixtures used to evaluate the definitions -/

/-- A well-formed ingredient row with the given order. -/
def exIngredient (k : Nat) : Ingredient :=
  { ingredient_quantity := "1", ingredient_uom := "cup", ingredient_name := "flour",
    ingredient_order := k }

/-- A well-formed instruction step with the given order. -/
def exInstruction (k : Nat) : Instruction :=
  { instruction_step := "mix", step_order := k }

/-- A well-formed ingredient section with the given order. -/
def exIngSection (k : Nat) : IngredientSection :=
  { section_title := "Main", section_order := k, ingredients := [exIngredient 1] }

/-- A well-formed instruction section with the given order. -/
def exInsSection (k : Nat) : InstructionSection :=
  { section_title := "Steps", section_order := k, instructions := [exInstruction 1] }

/-- A form with exactly two violated fields: a blank recipe name and
`number_servings = 0`; everything else is valid. -/
def badForm : RecipeForm :=
  { recipe_name := "", recipe_description := "tasty", course_type := "Dinner",
    recipe_type := "Soup", primary_protein := "Beef", ethnic_style := "Thai",
    prep_time := some 10, cook_time := some 20, number_servings := some 0,
    ingredient_sections := [exIngSection 1], instruction_sections := [exInsSection 1] }

/-! # Theorems -/

/-! ## Helper lemmas -/

theorem validateIngredients_eq_head (l : List Ingredient) :
    validateIngredients l = (ingredientViolations l).head? := by
  induction l with
  | nil => rfl
  | cons ing rest ih =>
    by_cases h : jsTrim ing.ingredient_name = ""
    · simp [validateIngredients, ingredientViolations, h]
    · simp [validateIngredients, ingredientViolations, h, ih]

theorem validateInstructions_eq_head (l : List Instruction) :
    validateInstructions l = (instructionViolations l).head? := by
  induction l with
  | nil => rfl
  | cons ins rest ih =>
    by_cases h : jsTrim ins.instruction_step = ""
    · simp [validateInstructions, instructionViolations, h]
    · simp [validateInstructions, instructionViolations, h, ih]

theorem validateIngredientSections_eq_head (l : List IngredientSection) :
    validateIngredientSections l = (ingredientSectionsViolations l).head? := by
  induction l with
  | nil => rfl
  | cons s rest ih =>
    by_cases h1 : jsTrim s.section_title = ""
    · simp [validateIngredientSections, ingredientSectionsViolations,
            ingredientSectionViolationsOf, h1]
    · by_cases h2 : s.ingredients.length = 0
      · have h3 : s.ingredients = [] := List.length_eq_zero.mp h2
        simp [validateIngredientSections, ingredientSectionsViolations,
              ingredientSectionViolationsOf, h1, h2, h3, ingredientViolations]
      · simp only [validateIngredientSections, ingredientSectionsViolations,
                   ingredientSectionViolationsOf, h1, h2, if_neg, ite_false,
                   validateIngredients_eq_head, ih]
        cases hv : ingredientViolations s.ingredients with
        | nil => simp [hv, h1, h2]
        | cons v vs => simp [hv, h1, h2]

theorem validateInstructionSections_eq_head (l : List InstructionSection) :
    validateInstructionSections l = (instructionSectionsViolations l).head? := by
  induction l with
  | nil => rfl
  | cons s rest ih =>
    by_cases h1 : jsTrim s.section_title = ""
    · simp [validateInstructionSections, instructionSectionsViolations,
            instructionSectionViolationsOf, h1]
    · by_cases h2 : s.instructions.length = 0
      · have h3 : s.instructions = [] := List.length_eq_zero.mp h2
        simp [validateInstructionSections, instructionSectionsViolations,
              instructionSectionViolationsOf, h1, h2, h3, instructionViolations]
      · simp only [validateInstructionSections, instructionSectionsViolations,
                   instructionSectionViolationsOf, h1, h2, if_neg, ite_false,
                   validateInstructions_eq_head, ih]
        cases hv : instructionViolations s.instructions with
        | nil => simp [hv, h1, h2]
        | cons v vs => simp [hv, h1, h2]

/-! ## C1 — validation error reporting -/

/-- C1 (counterexample): the claim that validation enumerates every violated
field is false on the code: `badForm` violates both the recipe-name and the
servings checks, yet `validateForm` reports only the first of them. -/
theorem C1_counterexample :
    ¬ (∀ f : RecipeForm, 2 ≤ (allViolations f).length →
        ∀ m ∈ allViolations f, m ∈ (validateForm f).toList) := by
  intro h
  have h2 := h badForm (by decide) "Number of servings must be at least 1" (by decide)
  revert h2
  decide

/-- C1 (amended): for every recipe payload, validation fails exactly when at
least one field is violated, but the `ValidationError` it reports carries
only the first violated field in the fixed check order — `validateForm`
returns precisely the head of the full violation list, never the later
entries. -/
theorem C1_validateForm_reports_first_violation (f : RecipeForm) :
    validateForm f = (allViolations f).head? := by
  unfold validateForm allViolations basicViolations
  simp only [List.append_assoc, List.head?_append]
  by_cases h1 : jsTrim f.recipe_name = ""
  · simp [h1]
  simp only [if_neg h1, List.head?_nil, Option.none_or]
  by_cases h2 : jsTrim f.recipe_description = ""
  · simp [h2]
  simp only [if_neg h2, List.head?_nil, Option.none_or]
  by_cases h3 : f.course_type = ""
  · simp [h3]
  simp only [if_neg h3, List.head?_nil, Option.none_or]
  by_cases h4 : f.recipe_type = ""
  · simp [h4]
  simp only [if_neg h4, List.head?_nil, Option.none_or]
  by_cases h5 : f.primary_protein = ""
  · simp [h5]
  simp only [if_neg h5, List.head?_nil, Option.none_or]
  by_cases h6 : f.ethnic_style = ""
  · simp [h6]
  simp only [if_neg h6, List.head?_nil, Option.none_or]
  by_cases h7 : timeInvalid f.prep_time = true
  · simp [h7]
  simp only [if_neg h7, List.head?_nil, Option.none_or]
  by_cases h8 : timeInvalid f.cook_time = true
  · simp [h8]
  simp only [if_neg h8, List.head?_nil, Option.none_or]
  by_cases h9 : servingsInvalid f.number_servings = true
  · simp [h9]
  simp only [if_neg h9, List.head?_nil, Option.none_or]
  rw [validateIngredientSections_eq_head, validateInstructionSections_eq_head]
  cases hv : (ingredientSectionsViolations f.ingredient_sections).head? with
  | some e => simp [hv]
  | none =>
    simp only [hv, Option.none_or]
    cases hw : (instructionSectionsViolations f.instruction_sections).head? <;> simp [hw]

/-! ## C2 / C9 — order-index invariants under removal and addition -/

theorem enumFrom_filter_ne_of_lt (l : List α) :
    ∀ (n k : Nat), k < n →
      (List.enumFrom n l).filter (fun p => p.1 ≠ k) = List.enumFrom n l := by
  induction l with
  | nil => intro n k _; rfl
  | cons a t ih =>
    intro n k hk
    rw [List.enumFrom_cons, List.filter_cons]
    rw [if_pos (by simp; omega)]
    rw [ih (n + 1) k (by omega)]

theorem filterOutIndex_aux (l : List α) :
    ∀ (n i : Nat), ((List.enumFrom n l).filter (fun p => p.1 ≠ n + i)).map Prod.snd
      = l.eraseIdx i := by
  induction l with
  | nil => intro n i; rfl
  | cons a t ih =>
    intro n i
    rw [List.enumFrom_cons]
    cases i with
    | zero =>
      rw [List.filter_cons]
      rw [if_neg (by simp)]
      rw [enumFrom_filter_ne_of_lt t (n + 1) (n + 0) (by omega)]
      simp [List.enumFrom_map_snd]
    | succ j =>
      rw [List.filter_cons]
      rw [if_pos (by simp)]
      rw [List.map_cons]
      have h2 : n + (j + 1) = (n + 1) + j := by omega
      rw [h2, ih (n + 1) j]
      rfl

theorem filterOutIndex_eq_eraseIdx (l : List α) (i : Nat) :
    filterOutIndex l i = l.eraseIdx i := by
  have := filterOutIndex_aux l 0 i
  simpa [filterOutIndex, List.enum] using this

theorem renumberIngredientSections_orders (l : List IngredientSection) :
    ∀ k, (renumberIngredientSections k l).map (fun s => s.section_order)
      = List.range' (k + 1) l.length := by
  induction l with
  | nil => intro k; rfl
  | cons s rest ih =>
    intro k
    simp [renumberIngredientSections, List.range'_succ, ih (k + 1)]

theorem renumberIngredients_orders (l : List Ingredient) :
    ∀ k, (renumberIngredients k l).map (fun x => x.ingredient_order)
      = List.range' (k + 1) l.length := by
  induction l with
  | nil => intro k; rfl
  | cons x rest ih =>
    intro k
    simp [renumberIngredients, List.range'_succ, ih (k + 1)]

theorem renumberInstructionSections_orders (l : List InstructionSection) :
    ∀ k, (renumberInstructionSections k l).map (fun s => s.section_order)
      = List.range' (k + 1) l.length := by
  induction l with
  | nil => intro k; rfl
  | cons s rest ih =>
    intro k
    simp [renumberInstructionSections, List.range'_succ, ih (k + 1)]

theorem renumberInstructions_orders (l : List Instruction) :
    ∀ k, (renumberInstructions k l).map (fun x => x.step_order)
      = List.range' (k + 1) l.length := by
  induction l with
  | nil => intro k; rfl
  | cons x rest ih =>
    intro k
    simp [renumberInstructions, List.range'_succ, ih (k + 1)]

/-- C2: removal restores contiguity.  For each of the four removal helpers:
if the collection's order indices are exactly `1..N` and an element at a
valid position is removed, the renumbered survivors carry order indices
exactly `1..N-1` — contiguous, no gaps, no duplicates. -/
theorem C2_remove_restores_contiguous_orders
    (ss : List IngredientSection) (i : Nat)
    (ings : List Ingredient) (j : Nat)
    (ts : List InstructionSection) (k : Nat)
    (steps : List Instruction) (m : Nat)
    (hi : i < ss.length) (hj : j < ings.length)
    (hk : k < ts.length) (hm : m < steps.length)
    (hss : ss.map (fun s => s.section_order) = List.range' 1 ss.length)
    (hings : ings.map (fun x => x.ingredient_order) = List.range' 1 ings.length)
    (hts : ts.map (fun s => s.section_order) = List.range' 1 ts.length)
    (hsteps : steps.map (fun x => x.step_order) = List.range' 1 steps.length) :
    (removeIngredientSection ss i).map (fun s => s.section_order)
        = List.range' 1 (ss.length - 1)
    ∧ (removeIngredientAt ings j).map (fun x => x.ingredient_order)
        = List.range' 1 (ings.length - 1)
    ∧ (removeInstructionSection ts k).map (fun s => s.section_order)
        = List.range' 1 (ts.length - 1)
    ∧ (removeInstructionAt steps m).map (fun x => x.step_order)
        = List.range' 1 (steps.length - 1) := by
  refine ⟨?_, ?_, ?_, ?_⟩
  · rw [removeIngredientSection, renumberIngredientSections_orders,
        filterOutIndex_eq_eraseIdx, List.length_eraseIdx, if_pos hi]
  · rw [removeIngredientAt, renumberIngredients_orders,
        filterOutIndex_eq_eraseIdx, List.length_eraseIdx, if_pos hj]
  · rw [removeInstructionSection, renumberInstructionSections_orders,
        filterOutIndex_eq_eraseIdx, List.length_eraseIdx, if_pos hk]
  · rw [removeInstructionAt, renumberInstructions_orders,
        filterOutIndex_eq_eraseIdx, List.length_eraseIdx, if_pos hm]

/-- C2 (witness): the theorem applied to concrete two-element collections
with orders `[1, 2]`, removing position 0. -/
theorem C2_witness :
    (removeIngredientSection [exIngSection 1, exIngSection 2] 0).map
        (fun s => s.section_order) = List.range' 1 1
    ∧ (removeIngredientAt [exIngredient 1, exIngredient 2] 0).map
        (fun x => x.ingredient_order) = List.range' 1 1
    ∧ (removeInstructionSection [exInsSection 1, exInsSection 2] 0).map
        (fun s => s.section_order) = List.range' 1 1
    ∧ (removeInstructionAt [exInstruction 1, exInstruction 2] 0).map
        (fun x => x.step_order) = List.range' 1 1 :=
  C2_remove_restores_contiguous_orders
    [exIngSection 1, exIngSection 2] 0 [exIngredient 1, exIngredient 2] 0
    [exInsSection 1, exInsSection 2] 0 [exInstruction 1, exInstruction 2] 0
    (by decide) (by decide) (by decide) (by decide)
    (by decide) (by decide) (by decide) (by decide)

/-- C9: every add operation extends the contiguous order range.  For each of
the four add helpers: if the collection's order indices are exactly `1..N`,
the appended element is assigned order `N + 1` (computed as length + 1), so
the collection's order indices become exactly `1..N+1`. -/
theorem C9_add_extends_contiguous_orders
    (ss : List IngredientSection) (ings : List Ingredient)
    (ts : List InstructionSection) (steps : List Instruction)
    (hss : ss.map (fun s => s.section_order) = List.range' 1 ss.length)
    (hings : ings.map (fun x => x.ingredient_order) = List.range' 1 ings.length)
    (hts : ts.map (fun s => s.section_order) = List.range' 1 ts.length)
    (hsteps : steps.map (fun x => x.step_order) = List.range' 1 steps.length) :
    (addIngredientSection ss).map (fun s => s.section_order)
        = List.range' 1 (ss.length + 1)
    ∧ (addIngredientTo ings).map (fun x => x.ingredient_order)
        = List.range' 1 (ings.length + 1)
    ∧ (addInstructionSection ts).map (fun s => s.section_order)
        = List.range' 1 (ts.length + 1)
    ∧ (addInstructionTo steps).map (fun x => x.step_order)
        = List.range' 1 (steps.length + 1) := by
  refine ⟨?_, ?_, ?_, ?_⟩
  · rw [addIngredientSection, List.map_append, hss, List.range'_concat]
    simp [Nat.add_comm]
  · rw [addIngredientTo, List.map_append, hings, List.range'_concat]
    simp [Nat.add_comm]
  · rw [addInstructionSection, List.map_append, hts, List.range'_concat]
    simp [Nat.add_comm]
  · rw [addInstructionTo, List.map_append, hsteps, List.range'_concat]
    simp [Nat.add_comm]

/-- C9 (witness): the theorem applied to concrete one-element collections
with orders `[1]`. -/
theorem C9_witness :
    (addIngredientSection [exIngSection 1]).map (fun s => s.section_order)
        = List.range' 1 2
    ∧ (addIngredientTo [exIngredient 1]).map (fun x => x.ingredient_order)
        = List.range' 1 2
    ∧ (addInstructionSection [exInsSection 1]).map (fun s => s.section_order)
        = List.range' 1 2
    ∧ (addInstructionTo [exInstruction 1]).map (fun x => x.step_order)
        = List.range' 1 2 :=
  C9_add_extends_contiguous_orders [exIngSection 1] [exIngredient 1]
    [exInsSection 1] [exInstruction 1]
    (by decide) (by decide) (by decide) (by decide)

/-! ## C3 — at most one transparent refresh per request -/

/-- C3: the interceptor refreshes at most once per request.  (1) A request
already marked `_retry` is never refreshed again; (2) the request the
interceptor re-sends is always marked `_retry`; (3) hence no request's
lifecycle ever attempts more than one refresh; (4) and a request failing
with 401 while a refresh token is stored attempts exactly one refresh. -/
theorem C3_at_most_one_refresh_per_request :
    (∀ (req : AxiosRequest) (status : Option Nat) (st : Storage) (rr : Option String),
        req.retry = true → (interceptResponseError req status st rr).refreshAttempts = 0)
    ∧ (∀ (req : AxiosRequest) (status : Option Nat) (st : Storage) (rr : Option String)
        (req2 : AxiosRequest),
        (interceptResponseError req status st rr).outcome = .retried req2 →
          req2.retry = true)
    ∧ (∀ (st : Storage) (first : AxiosResponse) (rr : Option String)
        (second : AxiosResponse) (rr2 : Option String),
        requestRefreshAttempts st first rr second rr2 ≤ 1)
    ∧ (∀ (st : Storage) (rr : Option String) (second : AxiosResponse) (rr2 : Option String),
        st.refresh_token.isSome = true →
        requestRefreshAttempts st (.failure (some 401)) rr second rr2 = 1) := by
  refine ⟨?_, ?_, ?_, ?_⟩
  · intro req status st rr h
    simp [interceptResponseError, h]
  · intro req status st rr req2 h
    unfold interceptResponseError at h
    by_cases hc : status = some 401 ∧ req.retry = false
    · rw [if_pos hc] at h
      cases hrt : st.refresh_token with
      | none => simp [hrt] at h
      | some t =>
        cases hrr : rr with
        | none => simp [hrt, hrr] at h
        | some access =>
          simp only [hrt, hrr] at h
          cases h
          rfl
    · rw [if_neg hc] at h
      simp at h
  · intro st first rr second rr2
    cases first with
    | success => simp [requestRefreshAttempts]
    | failure s1 =>
      by_cases h401 : s1 = some 401
      · subst h401
        cases hrt : st.refresh_token with
        | none => simp [requestRefreshAttempts, interceptResponseError, hrt]
        | some t =>
          cases hrr : rr with
          | none => simp [requestRefreshAttempts, interceptResponseError, hrt, hrr]
          | some access =>
            cases second with
            | success => simp [requestRefreshAttempts, interceptResponseError, hrt, hrr]
            | failure s2 =>
              simp [requestRefreshAttempts, interceptResponseError, hrt, hrr]
      · simp [requestRefreshAttempts, interceptResponseError, h401]
  · intro st rr second rr2 hs
    obtain ⟨t, hrt⟩ := Option.isSome_iff_exists.mp hs
    cases hrr : rr with
    | none => simp [requestRefreshAttempts, interceptResponseError, hrt, hrr]
    | some access =>
      cases second with
      | success => simp [requestRefreshAttempts, interceptResponseError, hrt, hrr]
      | failure s2 =>
        simp [requestRefreshAttempts, interceptResponseError, hrt, hrr]

/-- C3 (witness): a concrete 401 lifecycle — token stored, refresh succeeds,
the retried request fails with 401 again — performs exactly one refresh. -/
theorem C3_witness :
    (Storage.mk (some "a") (some "r") (some "u")).refresh_token.isSome = true ∧
    requestRefreshAttempts (Storage.mk (some "a") (some "r") (some "u"))
      (.failure (some 401)) (some "newtok") (.failure (some 401)) (some "newtok2") = 1 :=
  ⟨by decide,
   C3_at_most_one_refresh_per_request.2.2.2
     (Storage.mk (some "a") (some "r") (some "u")) (some "newtok")
     (.failure (some 401)) (some "newtok2") (by decide)⟩

/-! ## C5 — inactivity timer lifecycle -/

/-- C5: the inactivity timer.  (1) The idle duration is the fixed 12-hour
constant; (2) each event in the fixed activity set re-arms the timer to that
duration while a user is logged in; (3) a pending timer that fires produces
the inactivity logout redirect and leaves no pending timer; (4) an explicit
logout leaves no pending timer (the handle is cleared and nulled); (5) so
after an explicit logout a fire attempt runs nothing and produces no
redirect. -/
theorem C5_inactivity_timer_lifecycle :
    INACTIVITY_TIMEOUT = 43200000
    ∧ (∀ e ∈ activityEvents, ∀ s : AuthState, (getCurrentUser s).isSome = true →
        (dispatchWindowEvent e s).timer = some INACTIVITY_TIMEOUT)
    ∧ (∀ (s : AuthState) (b : Bool), s.timer.isSome = true →
        (fireInactivityTimer s b).2 = some "/login?reason=inactivity"
        ∧ (fireInactivityTimer s b).1.timer = none)
    ∧ (∀ (s : AuthState) (b : Bool), (providerLogout s b).timer = none)
    ∧ (∀ (s : AuthState) (b b2 : Bool),
        (fireInactivityTimer (providerLogout s b) b2).2 = none) := by
  refine ⟨by decide, ?_, ?_, ?_, ?_⟩
  · intro e he s hu
    simp [dispatchWindowEvent, he, handleActivity, hu, resetInactivityTimer,
          clearInactivityTimer, getCurrentUser] at hu ⊢
  · intro s b ht
    obtain ⟨d, hd⟩ := Option.isSome_iff_exists.mp ht
    simp [fireInactivityTimer, hd, handleInactivityLogout, authServiceLogout,
          clearAuthStorage]
  · intro s b
    simp [providerLogout, setUser, clearInactivityTimer]
  · intro s b b2
    simp [fireInactivityTimer, providerLogout, setUser, clearInactivityTimer]

/-- C5 (witness): the theorem applied to a concrete logged-in state and the
concrete event `click`. -/
theorem C5_witness :
    ("click" ∈ activityEvents)
    ∧ (dispatchWindowEvent "click"
        (AuthState.mk (Storage.mk (some "a") (some "r") (some "u")) none (some "u"))).timer
        = some INACTIVITY_TIMEOUT
    ∧ (fireInactivityTimer
        (AuthState.mk (Storage.mk (some "a") (some "r") (some "u"))
          (some INACTIVITY_TIMEOUT) (some "u")) false).2
        = some "/login?reason=inactivity" :=
  ⟨by decide,
   C5_inactivity_timer_lifecycle.2.1 "click" (by decide)
     (AuthState.mk (Storage.mk (some "a") (some "r") (some "u")) none (some "u"))
     (by decide),
   (C5_inactivity_timer_lifecycle.2.2.1
     (AuthState.mk (Storage.mk (some "a") (some "r") (some "u"))
       (some INACTIVITY_TIMEOUT) (some "u")) false (by decide)).1⟩

/-! ## C6 — forced logout: reason codes and storage teardown -/

/-- C6: every forced (non-user-initiated) logout clears the stored tokens and
user and redirects with exactly one fitting reason code: a failed refresh
attempt redirects with `session_expired`; a 401 with no stored refresh token
redirects with `no_session`; the idle timeout redirects with `inactivity`;
and any redirect the interceptor ever produces carries one of its two codes
with the storage already cleared. -/
theorem C6_forced_logout_reason_codes :
    (∀ (req : AxiosRequest) (st : Storage), req.retry = false →
        st.refresh_token.isSome = true →
        (interceptResponseError req (some 401) st none).outcome
            = .redirect "/login?reason=session_expired"
        ∧ (interceptResponseError req (some 401) st none).storage.access_token = none
        ∧ (interceptResponseError req (some 401) st none).storage.refresh_token = none
        ∧ (interceptResponseError req (some 401) st none).storage.user = none)
    ∧ (∀ (req : AxiosRequest) (st : Storage) (rr : Option String), req.retry = false →
        st.refresh_token = none →
        (interceptResponseError req (some 401) st rr).outcome
            = .redirect "/login?reason=no_session"
        ∧ (interceptResponseError req (some 401) st rr).storage.access_token = none
        ∧ (interceptResponseError req (some 401) st rr).storage.refresh_token = none
        ∧ (interceptResponseError req (some 401) st rr).storage.user = none)
    ∧ (∀ (s : AuthState) (b : Bool),
        (handleInactivityLogout s b).2 = "/login?reason=inactivity"
        ∧ (handleInactivityLogout s b).1.storage.access_token = none
        ∧ (handleInactivityLogout s b).1.storage.refresh_token = none
        ∧ (handleInactivityLogout s b).1.storage.user = none)
    ∧ (∀ (req : AxiosRequest) (status : Option Nat) (st : Storage) (rr : Option String)
        (url : String),
        (interceptResponseError req status st rr).outcome = .redirect url →
        (url = "/login?reason=session_expired" ∨ url = "/login?reason=no_session")
        ∧ (interceptResponseError req status st rr).storage.access_token = none
        ∧ (interceptResponseError req status st rr).storage.refresh_token = none
        ∧ (interceptResponseError req status st rr).storage.user = none) := by
  refine ⟨?_, ?_, ?_, ?_⟩
  · intro req st hreq hrt
    obtain ⟨t, ht⟩ := Option.isSome_iff_exists.mp hrt
    simp [interceptResponseError, hreq, ht, clearAuthStorage]
  · intro req st rr hreq hrt
    cases rr <;> simp [interceptResponseError, hreq, hrt, clearAuthStorage]
  · intro s b
    simp [handleInactivityLogout, authServiceLogout, clearAuthStorage]
  · intro req status st rr url h
    unfold interceptResponseError at h ⊢
    by_cases hc : status = some 401 ∧ req.retry = false
    · rw [if_pos hc] at h ⊢
      cases hrt : st.refresh_token with
      | none =>
        simp only [hrt] at h ⊢
        cases h
        simp [clearAuthStorage]
      | some t =>
        cases hrr : rr with
        | none =>
          simp only [hrt, hrr] at h ⊢
          cases h
          simp [clearAuthStorage]
        | some access =>
          simp [hrt, hrr] at h
    · rw [if_neg hc] at h
      simp at h

/-- C6 (witness): the theorem applied to concrete states for each of the
three forced-logout causes. -/
theorem C6_witness :
    (interceptResponseError (AxiosRequest.mk false (some "a")) (some 401)
        (Storage.mk (some "a") (some "r") (some "u")) none).outcome
      = .redirect "/login?reason=session_expired"
    ∧ (interceptResponseError (AxiosRequest.mk false (some "a")) (some 401)
        (Storage.mk (some "a") none (some "u")) none).outcome
      = .redirect "/login?reason=no_session"
    ∧ (handleInactivityLogout
        (AuthState.mk (Storage.mk (some "a") (some "r") (some "u")) none (some "u"))
        false).2 = "/login?reason=inactivity" :=
  ⟨(C6_forced_logout_reason_codes.1 (AxiosRequest.mk false (some "a"))
      (Storage.mk (some "a") (some "r") (some "u")) (by decide) (by decide)).1,
   (C6_forced_logout_reason_codes.2.1 (AxiosRequest.mk false (some "a"))
      (Storage.mk (some "a") none (some "u")) none (by decide) (by decide)).1,
   (C6_forced_logout_reason_codes.2.2.1
      (AuthState.mk (Storage.mk (some "a") (some "r") (some "u")) none (some "u"))
      false).1⟩

/-! ## C7 — empty filter values are omitted from query params -/

/-- C7: the params object sent to the recipe list endpoint never carries an
empty-string value; each of the four facet filters appears (with its value
unchanged) exactly when its value is non-empty; and the `search` key appears
exactly when the search term is non-empty — on both the all-recipes and the
my-recipes pages. -/
theorem C7_empty_filters_omitted
    (filters : RecipeFilters) (searchTerm : String) (userId : Option Nat) :
    (∀ kv ∈ fetchRecipesParams filters searchTerm, kv.2 ≠ JVal.str "")
    ∧ (∀ kv ∈ fetchMyRecipesParams filters userId searchTerm, kv.2 ≠ JVal.str "")
    ∧ (filters.course_type ≠ "" →
        ("course_type", JVal.str filters.course_type) ∈ fetchRecipesParams filters searchTerm
        ∧ ("course_type", JVal.str filters.course_type)
            ∈ fetchMyRecipesParams filters userId searchTerm)
    ∧ (filters.recipe_type ≠ "" →
        ("recipe_type", JVal.str filters.recipe_type) ∈ fetchRecipesParams filters searchTerm
        ∧ ("recipe_type", JVal.str filters.recipe_type)
            ∈ fetchMyRecipesParams filters userId searchTerm)
    ∧ (filters.primary_protein ≠ "" →
        ("primary_protein", JVal.str filters.primary_protein)
            ∈ fetchRecipesParams filters searchTerm
        ∧ ("primary_protein", JVal.str filters.primary_protein)
            ∈ fetchMyRecipesParams filters userId searchTerm)
    ∧ (filters.ethnic_style ≠ "" →
        ("ethnic_style", JVal.str filters.ethnic_style) ∈ fetchRecipesParams filters searchTerm
        ∧ ("ethnic_style", JVal.str filters.ethnic_style)
            ∈ fetchMyRecipesParams filters userId searchTerm)
    ∧ (filters.course_type = "" →
        "course_type" ∉ (fetchRecipesParams filters searchTerm).map Prod.fst
        ∧ "course_type" ∉ (fetchMyRecipesParams filters userId searchTerm).map Prod.fst)
    ∧ (filters.recipe_type = "" →
        "recipe_type" ∉ (fetchRecipesParams filters searchTerm).map Prod.fst
        ∧ "recipe_type" ∉ (fetchMyRecipesParams filters userId searchTerm).map Prod.fst)
    ∧ (filters.primary_protein = "" →
        "primary_protein" ∉ (fetchRecipesParams filters searchTerm).map Prod.fst
        ∧ "primary_protein" ∉ (fetchMyRecipesParams filters userId searchTerm).map Prod.fst)
    ∧ (filters.ethnic_style = "" →
        "ethnic_style" ∉ (fetchRecipesParams filters searchTerm).map Prod.fst
        ∧ "ethnic_style" ∉ (fetchMyRecipesParams filters userId searchTerm).map Prod.fst)
    ∧ ("search" ∈ (fetchRecipesParams filters searchTerm).map Prod.fst ↔ searchTerm ≠ "")
    ∧ ("search" ∈ (fetchMyRecipesParams filters userId searchTerm).map Prod.fst
        ↔ searchTerm ≠ "") := by
  refine ⟨?_, ?_, ?_, ?_, ?_, ?_, ?_, ?_, ?_, ?_, ?_, ?_⟩
  · intro kv hkv
    simp [fetchRecipesParams, List.mem_filter] at hkv
    exact hkv.2
  · intro kv hkv
    simp [fetchMyRecipesParams, List.mem_filter] at hkv
    exact hkv.2
  · intro h
    exact ⟨by simp [fetchRecipesParams, List.mem_filter, h],
           by simp [fetchMyRecipesParams, List.mem_filter, h]⟩
  · intro h
    exact ⟨by simp [fetchRecipesParams, List.mem_filter, h],
           by simp [fetchMyRecipesParams, List.mem_filter, h]⟩
  · intro h
    exact ⟨by simp [fetchRecipesParams, List.mem_filter, h],
           by simp [fetchMyRecipesParams, List.mem_filter, h]⟩
  · intro h
    exact ⟨by simp [fetchRecipesParams, List.mem_filter, h],
           by simp [fetchMyRecipesParams, List.mem_filter, h]⟩
  · intro h
    constructor
    · by_cases hs : searchTerm = "" <;>
        simp [fetchRecipesParams, List.mem_filter, h, hs]
    · cases userId <;> by_cases hs : searchTerm = "" <;>
        simp [fetchMyRecipesParams, List.mem_filter, h, hs]
  · intro h
    constructor
    · by_cases hs : searchTerm = "" <;>
        simp [fetchRecipesParams, List.mem_filter, h, hs]
    · cases userId <;> by_cases hs : searchTerm = "" <;>
        simp [fetchMyRecipesParams, List.mem_filter, h, hs]
  · intro h
    constructor
    · by_cases hs : searchTerm = "" <;>
        simp [fetchRecipesParams, List.mem_filter, h, hs]
    · cases userId <;> by_cases hs : searchTerm = "" <;>
        simp [fetchMyRecipesParams, List.mem_filter, h, hs]
  · intro h
    constructor
    · by_cases hs : searchTerm = "" <;>
        simp [fetchRecipesParams, List.mem_filter, h, hs]
    · cases userId <;> by_cases hs : searchTerm = "" <;>
        simp [fetchMyRecipesParams, List.mem_filter, h, hs]
  · by_cases hs : searchTerm = ""
    · simp [fetchRecipesParams, List.mem_filter, hs]
    · constructor
      · intro _
        exact hs
      · intro _
        have hmem : ("search", JVal.str searchTerm)
            ∈ fetchRecipesParams filters searchTerm := by
          simp [fetchRecipesParams, List.mem_filter, hs]
        exact List.mem_map_of_mem Prod.fst hmem
  · by_cases hs : searchTerm = ""
    · cases userId <;> simp [fetchMyRecipesParams, List.mem_filter, hs]
    · constructor
      · intro _
        exact hs
      · intro _
        have hmem : ("search", JVal.str searchTerm)
            ∈ fetchMyRecipesParams filters userId searchTerm := by
          cases userId <;> simp [fetchMyRecipesParams, List.mem_filter, hs]
        exact List.mem_map_of_mem Prod.fst hmem

/-- C7 (witness): a concrete filter state with one empty facet, a loaded
user and a non-empty search term. -/
theorem C7_witness :
    ("course_type", JVal.str "Dinner")
        ∈ fetchRecipesParams (RecipeFilters.mk "Dinner" "" "Beef" "Thai") "pasta"
    ∧ "recipe_type"
        ∉ (fetchRecipesParams (RecipeFilters.mk "Dinner" "" "Beef" "Thai") "pasta").map
            Prod.fst
    ∧ ("search" ∈ (fetchMyRecipesParams (RecipeFilters.mk "Dinner" "" "Beef" "Thai")
        (some 7) "pasta").map Prod.fst ↔ ("pasta" : String) ≠ "") :=
  ⟨((C7_empty_filters_omitted (RecipeFilters.mk "Dinner" "" "Beef" "Thai") "pasta"
      (some 7)).2.2.1 (by decide)).1,
   ((C7_empty_filters_omitted (RecipeFilters.mk "Dinner" "" "Beef" "Thai") "pasta"
      (some 7)).2.2.2.2.2.2.2.1 (by decide)).1,
   (C7_empty_filters_omitted (RecipeFilters.mk "Dinner" "" "Beef" "Thai") "pasta"
      (some 7)).2.2.2.2.2.2.2.2.2.2.2⟩

/-! ## C8 — comment creation gate -/

/-- C8: the comment form is rendered only for an authenticated user; a comment
whose trimmed text is empty produces the error message and no create request;
a non-blank comment issues the create request with exactly the trimmed text. -/
theorem C8_comment_requires_auth_and_text (isAuth : Bool) (text : String) :
    (commentSectionView isAuth = .form ↔ isAuth = true)
    ∧ (jsTrim text = "" →
        handleSubmitComment text = .error "Comment cannot be empty.")
    ∧ (jsTrim text ≠ "" → handleSubmitComment text = .ok (jsTrim text))
    ∧ (∀ payload, handleSubmitComment text = .ok payload → payload = jsTrim text) := by
  refine ⟨?_, ?_, ?_, ?_⟩
  · cases isAuth <;> simp [commentSectionView]
  · intro h
    simp [handleSubmitComment, h]
  · intro h
    simp [handleSubmitComment, h]
  · intro payload h
    by_cases ht : jsTrim text = "" <;> simp [handleSubmitComment, ht] at h
    exact h.symm

/-- C8 (witness): concrete evaluations — authenticated view shows the form, a
whitespace-only comment is rejected, and a padded comment is sent trimmed. -/
theorem C8_witness :
    commentSectionView true = .form
    ∧ handleSubmitComment "   " = .error "Comment cannot be empty."
    ∧ handleSubmitComment " yum " = .ok "yum" :=
  ⟨(C8_comment_requires_auth_and_text true "x").1.mpr rfl,
   (C8_comment_requires_auth_and_text true "   ").2.1 (by decide),
   ((C8_comment_requires_auth_and_text true " yum ").2.2.1 (by decide)).trans
     (congrArg Except.ok (by decide))⟩

/-! ## C10 — logout always clears the stored session -/

/-- C10: after authService.logout completes, the access token, refresh token
and user entries are gone from storage — for every prior storage state
(including one with no refresh token) and regardless of whether the
server-side logout request throws. -/
theorem C10_logout_clears_storage (st : Storage) (b : Bool) :
    (authServiceLogout st b).access_token = none
    ∧ (authServiceLogout st b).refresh_token = none
    ∧ (authServiceLogout st b).user = none := by
  simp [authServiceLogout, clearAuthStorage]

/-! ## C4 — derived total time -/

/-- C4 (spec-modelled): `computeTotalTime` is the pure sum `prep + cook`, and
the stored `total_time` equals `prep_time + cook_time` after both create and
update, being recomputed from the new inputs on every update. -/
theorem C4_total_time_is_sum (prep cook : Nat) (r : StoredRecipe) :
    computeTotalTime prep cook = prep + cook
    ∧ (createRecipeStored prep cook).total_time
        = (createRecipeStored prep cook).prep_time + (createRecipeStored prep cook).cook_time
    ∧ (updateRecipeStored r prep cook).total_time
        = (updateRecipeStored r prep cook).prep_time + (updateRecipeStored r prep cook).cook_time :=
  ⟨rfl, rfl, rfl⟩
